import Mathlib

/-!
Verification of the Cloudflare Pages access-gate middleware
(`public/functions/_middleware.js` and its earlier variant without the
canonical-host redirect).

JavaScript strings are embedded as `List Char`; the request is embedded as
its already-parsed URL components (hostname, pathname, search) plus the
optional `Authorization` header; `context.next()` is embedded as an opaque
downstream response carried in the context.  `atob` implements the WHATWG
forgiving-base64 decode; it returns `none` where the platform `atob`
throws, and `onRequest` returns `none` exactly when the JavaScript
function would end in an uncaught exception.
-/

/-- A JavaScript string, embedded as its list of characters. -/
abbrev Str := List Char

/-- Coerce a Lean string literal to the embedding type. -/
def str (s : String) : Str := s.data

/-- `const PASSWORD = "betrayal";` from `_middleware.js` line 1. -/
def PASSWORD : Str := str "betrayal"

/-- `const CANONICAL = "https://agentsofchaos.baulab.info";` from line 2. -/
def CANONICAL : Str := str "https://agentsofchaos.baulab.info"

/-- ASCII whitespace stripped by the forgiving-base64 decode
(TAB, LF, FF, CR, SPACE). -/
def isB64Ws (c : Char) : Bool :=
  c = ' ' || c = '\t' || c = '\n' || c = '\x0c' || c = '\r'

/-- Value of a base64 alphabet character, `none` for anything else. -/
def b64Val (c : Char) : Option Nat :=
  if 65 ≤ c.toNat && c.toNat ≤ 90 then some (c.toNat - 65)
  else if 97 ≤ c.toNat && c.toNat ≤ 122 then some (c.toNat - 97 + 26)
  else if 48 ≤ c.toNat && c.toNat ≤ 57 then some (c.toNat - 48 + 52)
  else if c = '+' then some 62
  else if c = '/' then some 63
  else none

/-- Map `b64Val` over a string, failing if any character is outside the
base64 alphabet. -/
def mapB64 : Str → Option (List Nat)
  | [] => some []
  | c :: rest =>
    match b64Val c, mapB64 rest with
    | some v, some vs => some (v :: vs)
    | _, _ => none

/-- Remove one or two trailing `=` padding characters. -/
def stripPad (l : Str) : Str :=
  match l.reverse with
  | '=' :: '=' :: rest => rest.reverse
  | '=' :: rest => rest.reverse
  | _ => l

/-- Reassemble 6-bit groups into bytes, discarding leftover bits of a
final group of two or three sextets (forgiving-base64 semantics). -/
def sextetsToBytes : List Nat → List Nat
  | a :: b :: c :: d :: rest =>
    (a * 4 + b / 16) :: ((b % 16) * 16 + c / 4) :: ((c % 4) * 64 + d)
      :: sextetsToBytes rest
  | [a, b] => [a * 4 + b / 16]
  | [a, b, c] => [a * 4 + b / 16, (b % 16) * 16 + c / 4]
  | _ => []

/-- WHATWG forgiving-base64 decode, as performed by the platform `atob`:
strip ASCII whitespace; if the length is a multiple of four, remove up to
two trailing `=`; fail when the remaining length is `1 mod 4` or when any
character is outside the base64 alphabet; otherwise decode the sextets to
bytes and view each byte as a character.  `none` models the
`InvalidCharacterError` the platform throws. -/
def atob (s : Str) : Option Str :=
  let d1 := s.filter (fun c => !(isB64Ws c))
  let d2 := if d1.length % 4 = 0 then stripPad d1 else d1
  if d2.length % 4 = 1 then none
  else
    match mapB64 d2 with
    | none => none
    | some sextets => some ((sextetsToBytes sextets).map Char.ofNat)

/-- Prepend a character to the first piece of a split result. -/
def consHead (c : Char) : List Str → List Str
  | [] => [[c]]
  | h :: t => (c :: h) :: t

/-- JavaScript `s.split(sep)` for a single-character separator. -/
def jsSplit (sep : Char) : Str → List Str
  | [] => [[]]
  | c :: rest =>
    if c = sep then [] :: jsSplit sep rest
    else consHead c (jsSplit sep rest)

/-- JavaScript `parts.join(sep)` for a single-character separator. -/
def join1 (sep : Char) : List Str → Str
  | [] => []
  | [x] => x
  | x :: xs => x ++ sep :: join1 sep xs

/-- `decoded.split(":").slice(1).join(":")` from `_middleware.js`
line 14: everything after the first colon, empty if there is none. -/
def extractPassword (decoded : Str) : Str :=
  join1 ':' ((jsSplit ':' decoded).drop 1)

/-- The request context handed to `onRequest`: the parsed URL parts of
`context.request.url`, the `Authorization` header if present, and the
downstream response `context.next()` would produce. -/
structure Context (α : Type) where
  hostname : Str
  pathname : Str
  search : Str
  authorization : Option Str
  next : α
deriving DecidableEq

/-- An HTTP response as observed from `onRequest`: a redirect, a plain
response with body, status and headers, or the downstream handler's
response returned verbatim. -/
inductive Resp (α : Type) where
  | redirect (location : Str) (status : Nat)
  | plain (body : Str) (status : Nat) (headers : List (Str × Str))
  | downstream (r : α)
deriving DecidableEq

/-- The single 401 challenge built at lines 20-25 of `_middleware.js`. -/
def unauthorizedResponse {α : Type} : Resp α :=
  .plain (str "Unauthorized") 401
    [(str "WWW-Authenticate", str "Basic realm=\"Agents of Chaos\"")]

/-- `onRequest` from `public/functions/_middleware.js`.  Returns `none`
exactly when the JavaScript function throws (the uncaught
`InvalidCharacterError` from `atob` on malformed base64).  The JavaScript
truthiness test `authHeader && ...` is covered by the `Option` match: an
absent header is `none`, and an empty-string header (falsy in JS) fails
the `startsWith` check, giving the same 401. -/
def onRequest {α : Type} (ctx : Context α) : Option (Resp α) :=
  if (str ".pages.dev").isSuffixOf ctx.hostname then
    some (.redirect (CANONICAL ++ ctx.pathname ++ ctx.search) 301)
  else
    match ctx.authorization with
    | some authHeader =>
      if (str "Basic ").isPrefixOf authHeader then
        match atob (authHeader.drop 6) with
        | none => none
        | some decoded =>
          if extractPassword decoded = PASSWORD then
            some (.downstream ctx.next)
          else some unauthorizedResponse
      else some unauthorizedResponse
    | none => some unauthorizedResponse

/-- `onRequest` from the earlier middleware variant (the unnamed source
file): identical authentication logic, with no canonical-host redirect
step. -/
def onRequestOld {α : Type} (ctx : Context α) : Option (Resp α) :=
  match ctx.authorization with
  | some authHeader =>
    if (str "Basic ").isPrefixOf authHeader then
      match atob (authHeader.drop 6) with
      | none => none
      | some decoded =>
        if extractPassword decoded = PASSWORD then
          some (.downstream ctx.next)
        else some unauthorizedResponse
    else some unauthorizedResponse
  | none => some unauthorizedResponse

lemma consHead_ne_nil (c : Char) (l : List Str) : consHead c l ≠ [] := by
  cases l <;> simp [consHead]

lemma jsSplit_ne_nil (sep : Char) (s : Str) : jsSplit sep s ≠ [] := by
  cases s with
  | nil => simp [jsSplit]
  | cons c rest =>
    by_cases hc : c = sep
    · simp [jsSplit, hc]
    · simpa [jsSplit, hc] using consHead_ne_nil c (jsSplit sep rest)

lemma jsSplit_no_sep (sep : Char) (s : Str) (h : sep ∉ s) :
    jsSplit sep s = [s] := by
  induction s with
  | nil => rfl
  | cons c rest ih =>
    have hc : c ≠ sep := fun hcs => h (hcs ▸ List.mem_cons_self c rest)
    have hrest : sep ∉ rest := fun hm => h (List.mem_cons_of_mem c hm)
    simp [jsSplit, ih hrest, hc, consHead]

lemma jsSplit_append_sep (sep : Char) (a b : Str) (ha : sep ∉ a) :
    jsSplit sep (a ++ sep :: b) = a :: jsSplit sep b := by
  induction a with
  | nil => simp [jsSplit]
  | cons c rest ih =>
    have hc : c ≠ sep := fun hcs => ha (hcs ▸ List.mem_cons_self c rest)
    have hrest : sep ∉ rest := fun hm => ha (List.mem_cons_of_mem c hm)
    simp [jsSplit, hc, ih hrest, consHead]

lemma join1_jsSplit (sep : Char) (s : Str) :
    join1 sep (jsSplit sep s) = s := by
  induction s with
  | nil => rfl
  | cons c rest ih =>
    rcases h : jsSplit sep rest with _ | ⟨hd, tl⟩
    · exact absurd h (jsSplit_ne_nil sep rest)
    · rw [h] at ih
      by_cases hc : c = sep
      · subst hc
        simp only [jsSplit, if_pos rfl, h]
        cases tl with
        | nil => simp only [join1] at ih ⊢; rw [ih]; rfl
        | cons x xs =>
          simp only [join1] at ih ⊢
          rw [List.nil_append, ih]
      · simp only [jsSplit, if_neg hc, h, consHead]
        cases tl with
        | nil => simp only [join1] at ih ⊢; rw [ih]
        | cons x xs =>
          simp only [join1] at ih ⊢
          rw [List.cons_append, ih]

lemma extractPassword_after_colon (a b : Str) (ha : ':' ∉ a) :
    extractPassword (a ++ ':' :: b) = b := by
  rw [extractPassword, jsSplit_append_sep ':' a b ha, List.drop_one,
    List.tail_cons, join1_jsSplit]

lemma extractPassword_no_colon (s : Str) (h : ':' ∉ s) :
    extractPassword s = [] := by
  rw [extractPassword, jsSplit_no_sep ':' s h]
  rfl

lemma isPrefixOf_append_self (a b : Str) : a.isPrefixOf (a ++ b) = true := by
  induction a with
  | nil => simp [List.isPrefixOf]
  | cons c rest ih => simp [List.isPrefixOf, ih]

example : atob (str "eDpiZXRyYXlhbA==") = some (str "x:betrayal") := by decide
example : atob (str "dXNlcjpwYXNzOndvcmQ=") = some (str "user:pass:word") := by decide
example : atob (str "!!!notbase64!!!") = none := by decide
example : extractPassword (str "user:pass:word") = str "pass:word" := by decide

/-- Claim C1: for every request whose hostname does not end with
".pages.dev" and whose Authorization header is "Basic " followed by a
valid base64 encoding of user:betrayal (non-empty username before the
first colon), onRequest returns exactly the downstream handler's
response unmodified. -/
theorem middleware_c1_passthrough {α : Type} (ctx : Context α)
    (payload user : Str)
    (hhost : (str ".pages.dev").isSuffixOf ctx.hostname = false)
    (hauth : ctx.authorization = some (str "Basic " ++ payload))
    (hdec : atob payload = some (user ++ ':' :: str "betrayal"))
    (huser : ':' ∉ user) (hne : user ≠ []) :
    onRequest ctx = some (.downstream ctx.next) := by
  have hdrop : (str "Basic " ++ payload).drop 6 = payload := rfl
  have hpre := isPrefixOf_append_self (str "Basic ") payload
  have hext : extractPassword (user ++ ':' :: str "betrayal") = PASSWORD :=
    extractPassword_after_colon user (str "betrayal") huser
  simp [onRequest, hhost, hauth, hpre, hdrop, hdec, hext]

/-- Witness for C1 at a concrete request carrying
base64("x:betrayal"). -/
theorem middleware_c1_witness :
    (str ".pages.dev").isSuffixOf (str "agentsofchaos.baulab.info") = false ∧
    onRequest (Context.mk (str "agentsofchaos.baulab.info") (str "/")
      (str "") (some (str "Basic eDpiZXRyYXlhbA==")) (7 : Nat)) =
      some (.downstream 7) :=
  ⟨by decide,
    middleware_c1_passthrough _ (str "eDpiZXRyYXlhbA==") (str "x")
      (by decide) (by decide) (by decide) (by decide) (by decide)⟩

/-- Claim C2: for every request whose hostname ends with ".pages.dev",
onRequest returns a 301 redirect to the canonical host with the original
path and query appended, regardless of the Authorization header. -/
theorem middleware_c2_redirect {α : Type} (ctx : Context α)
    (hhost : (str ".pages.dev").isSuffixOf ctx.hostname = true) :
    onRequest ctx =
      some (.redirect (CANONICAL ++ ctx.pathname ++ ctx.search) 301) := by
  simp [onRequest, hhost]

/-- Witness for C2: a request to preview123.pages.dev/report.html?x=1
with valid credentials attached is still redirected to
agentsofchaos.baulab.info/report.html?x=1. -/
theorem middleware_c2_witness :
    (str ".pages.dev").isSuffixOf (str "preview123.pages.dev") = true ∧
    onRequest (Context.mk (str "preview123.pages.dev") (str "/report.html")
      (str "?x=1") (some (str "Basic eDpiZXRyYXlhbA==")) (0 : Nat)) =
      some (.redirect
        (str "https://agentsofchaos.baulab.info/report.html?x=1") 301) :=
  ⟨by decide, (middleware_c2_redirect _ (by decide)).trans (by decide)⟩

/-- Claim C3 (code bug): on a request whose Authorization remainder is
not valid base64, onRequest does not return a 401 response: `atob`
throws and the exception is uncaught, so the function ends in an error
(modelled as `none`), contradicting the spec's requirement that
malformed base64 yields 401 rather than a thrown error. -/
theorem middleware_c3_malformed_base64_throws :
    onRequest (Context.mk (str "agentsofchaos.baulab.info") (str "/")
      (str "") (some (str "Basic !!!notbase64!!!")) (0 : Nat)) = none := by
  decide

/-- Claim C4 (code bug): the failure modes do not all collapse to the
identical 401 response: missing header, non-Basic scheme and wrong
password all produce the single 401 challenge, but malformed base64
ends in an uncaught `atob` exception instead. -/
theorem middleware_c4_modes_not_identical :
    onRequest (Context.mk (str "agentsofchaos.baulab.info") (str "/")
      (str "") (some (str "Basic %%%bad%%%")) (0 : Nat)) = none ∧
    onRequest (Context.mk (str "agentsofchaos.baulab.info") (str "/")
      (str "") none (0 : Nat)) = some unauthorizedResponse ∧
    onRequest (Context.mk (str "agentsofchaos.baulab.info") (str "/")
      (str "") (some (str "Bearer sometoken")) (0 : Nat)) =
      some unauthorizedResponse ∧
    onRequest (Context.mk (str "agentsofchaos.baulab.info") (str "/")
      (str "") (some (str "Basic dXNlcjp3cm9uZw==")) (0 : Nat)) =
      some unauthorizedResponse := by
  decide

/-- Claim C5: for every request (not on the preview domain) whose
credentials decode to user:pw with pw different from "betrayal",
onRequest returns the 401 response. -/
theorem middleware_c5_wrong_password {α : Type} (ctx : Context α)
    (payload user pw : Str)
    (hhost : (str ".pages.dev").isSuffixOf ctx.hostname = false)
    (hauth : ctx.authorization = some (str "Basic " ++ payload))
    (hdec : atob payload = some (user ++ ':' :: pw))
    (huser : ':' ∉ user) (hpw : pw ≠ PASSWORD) :
    onRequest ctx = some unauthorizedResponse := by
  have hdrop : (str "Basic " ++ payload).drop 6 = payload := rfl
  have hpre := isPrefixOf_append_self (str "Basic ") payload
  have hext := extractPassword_after_colon user pw huser
  simp [onRequest, hhost, hauth, hpre, hdrop, hdec, hext, hpw]

/-- Witness for C5 at base64("user:wrong"). -/
theorem middleware_c5_witness :
    str "wrong" ≠ PASSWORD ∧
    onRequest (Context.mk (str "agentsofchaos.baulab.info") (str "/")
      (str "") (some (str "Basic dXNlcjp3cm9uZw==")) (0 : Nat)) =
      some unauthorizedResponse :=
  ⟨by decide,
    middleware_c5_wrong_password _ (str "dXNlcjp3cm9uZw==") (str "user")
      (str "wrong") (by decide) (by decide) (by decide) (by decide)
      (by decide)⟩

/-- Claim C6: for every request (not on the preview domain) carrying no
Authorization header, onRequest returns status 401, body "Unauthorized"
and the header WWW-Authenticate: Basic realm="Agents of Chaos". -/
theorem middleware_c6_missing_header {α : Type} (ctx : Context α)
    (hhost : (str ".pages.dev").isSuffixOf ctx.hostname = false)
    (hauth : ctx.authorization = none) :
    onRequest ctx = some (.plain (str "Unauthorized") 401
      [(str "WWW-Authenticate", str "Basic realm=\"Agents of Chaos\"")]) := by
  simp [onRequest, hhost, hauth, unauthorizedResponse]

/-- Witness for C6 at a concrete header-less request. -/
theorem middleware_c6_witness :
    (str ".pages.dev").isSuffixOf (str "agentsofchaos.baulab.info") = false ∧
    onRequest (Context.mk (str "agentsofchaos.baulab.info")
      (str "/index.html") (str "") none (0 : Nat)) =
      some (.plain (str "Unauthorized") 401
        [(str "WWW-Authenticate", str "Basic realm=\"Agents of Chaos\"")]) :=
  ⟨by decide, middleware_c6_missing_header _ (by decide) (by decide)⟩

/-- Claim C7: only the first colon of the decoded credentials delimits
the password: when the credentials decode to a ++ ":" ++ b with no colon
in a, the extracted password is the full suffix b, and the request
passes through if and only if b equals "betrayal". -/
theorem middleware_c7_first_colon {α : Type} (ctx : Context α)
    (payload a b : Str)
    (hhost : (str ".pages.dev").isSuffixOf ctx.hostname = false)
    (hauth : ctx.authorization = some (str "Basic " ++ payload))
    (hdec : atob payload = some (a ++ ':' :: b))
    (ha : ':' ∉ a) :
    extractPassword (a ++ ':' :: b) = b ∧
    (onRequest ctx = some (.downstream ctx.next) ↔ b = PASSWORD) := by
  have hdrop : (str "Basic " ++ payload).drop 6 = payload := rfl
  have hpre := isPrefixOf_append_self (str "Basic ") payload
  have hext := extractPassword_after_colon a b ha
  refine ⟨hext, ?_⟩
  have key : onRequest ctx = (if b = PASSWORD then
      some (.downstream ctx.next) else some unauthorizedResponse) := by
    simp [onRequest, hhost, hauth, hpre, hdrop, hdec, hext]
  rw [key]
  by_cases hb : b = PASSWORD <;> simp [hb, unauthorizedResponse]

/-- Witness for C7 at base64("user:pass:word"): the password is
"pass:word", which differs from "betrayal", so the request is
rejected. -/
theorem middleware_c7_witness :
    extractPassword (str "user" ++ ':' :: str "pass:word") =
      str "pass:word" ∧
    (onRequest (Context.mk (str "agentsofchaos.baulab.info") (str "/")
      (str "") (some (str "Basic dXNlcjpwYXNzOndvcmQ=")) (0 : Nat)) =
      some (.downstream 0) ↔ str "pass:word" = PASSWORD) :=
  middleware_c7_first_colon _ (str "dXNlcjpwYXNzOndvcmQ=") (str "user")
    (str "pass:word") (by decide) (by decide) (by decide) (by decide)

/-- Claim C8: an Authorization header whose value does not start with
the literal, case-sensitive token "Basic " (trailing space included) is
rejected with the 401 response. -/
theorem middleware_c8_non_basic_scheme {α : Type} (ctx : Context α)
    (h : Str)
    (hhost : (str ".pages.dev").isSuffixOf ctx.hostname = false)
    (hauth : ctx.authorization = some h)
    (hpre : (str "Basic ").isPrefixOf h = false) :
    onRequest ctx = some unauthorizedResponse := by
  simp [onRequest, hhost, hauth, hpre]

/-- Witness for C8: a lowercase "basic " scheme carrying otherwise valid
credentials is rejected, showing the scheme check is case-sensitive. -/
theorem middleware_c8_witness :
    (str "Basic ").isPrefixOf (str "basic eDpiZXRyYXlhbA==") = false ∧
    onRequest (Context.mk (str "agentsofchaos.baulab.info") (str "/")
      (str "") (some (str "basic eDpiZXRyYXlhbA==")) (0 : Nat)) =
      some unauthorizedResponse :=
  ⟨by decide,
    middleware_c8_non_basic_scheme _ (str "basic eDpiZXRyYXlhbA==")
      (by decide) (by decide) (by decide)⟩

/-- Claim C9: credentials whose decoded text contains no colon yield the
empty extracted password, so the request is rejected (the configured
secret "betrayal" is non-empty); no colon-free credential string ever
passes. -/
theorem middleware_c9_no_colon {α : Type} (ctx : Context α)
    (payload decoded : Str)
    (hhost : (str ".pages.dev").isSuffixOf ctx.hostname = false)
    (hauth : ctx.authorization = some (str "Basic " ++ payload))
    (hdec : atob payload = some decoded)
    (hnc : ':' ∉ decoded) :
    extractPassword decoded = [] ∧
    onRequest ctx = some unauthorizedResponse := by
  have hdrop : (str "Basic " ++ payload).drop 6 = payload := rfl
  have hpre := isPrefixOf_append_self (str "Basic ") payload
  have hext := extractPassword_no_colon decoded hnc
  have hne : ([] : Str) ≠ PASSWORD := by decide
  refine ⟨hext, ?_⟩
  simp [onRequest, hhost, hauth, hpre, hdrop, hdec, hext, hne]

/-- Witness for C9: base64("betrayal") — the bare password with no
colon — is still rejected. -/
theorem middleware_c9_witness :
    ':' ∉ str "betrayal" ∧
    extractPassword (str "betrayal") = [] ∧
    onRequest (Context.mk (str "agentsofchaos.baulab.info") (str "/")
      (str "") (some (str "Basic YmV0cmF5YWw=")) (0 : Nat)) =
      some unauthorizedResponse :=
  ⟨by decide,
    middleware_c9_no_colon _ (str "YmV0cmF5YWw=") (str "betrayal")
      (by decide) (by decide) (by decide) (by decide)⟩

/-- Claim C10: away from the preview domain the two middleware versions
agree: the current onRequest and the earlier redirect-free variant make
the same decision and build the identical response on every request. -/
theorem middleware_c10_old_new_agree {α : Type} (ctx : Context α)
    (hhost : (str ".pages.dev").isSuffixOf ctx.hostname = false) :
    onRequest ctx = onRequestOld ctx := by
  simp only [onRequest, onRequestOld, hhost, Bool.false_eq_true, if_false]

/-- Witness for C10 at a concrete authorized request. -/
theorem middleware_c10_witness :
    (str ".pages.dev").isSuffixOf (str "agentsofchaos.baulab.info") = false ∧
    onRequest (Context.mk (str "agentsofchaos.baulab.info")
      (str "/index.html") (str "") (some (str "Basic eDpiZXRyYXlhbA=="))
      (3 : Nat)) =
    onRequestOld (Context.mk (str "agentsofchaos.baulab.info")
      (str "/index.html") (str "") (some (str "Basic eDpiZXRyYXlhbA=="))
      (3 : Nat)) :=
  ⟨by decide, middleware_c10_old_new_agree _ (by decide)⟩
